import Mathlib

/-
Shallow embedding of src/etl.py (a Spark batch ETL job producing a star
schema: songs, artists, users, time, songplays).

Modelling conventions, in source order:
  - A Spark DataFrame is a List of row structures; dropDuplicates is
    List.dedup (the claims only concern the resulting row set, not which
    duplicate survives).
  - DoubleType payloads (latitude, longitude, duration, length) are only
    ever projected and compared for exact equality by the pipeline, never
    computed with; they are modelled as Int.  TimestampType is modelled as
    Nat milliseconds since the Unix epoch.  StringType is String,
    IntegerType is Int.
  - A raw JSON field is a JsonField: the value, an explicit null, or an
    ill-typed payload.  The schema-enforcing reader of the engine
    (spark.read.json with an explicit schema, lines 53 and 105) is modelled
    from the spec (sections 4.3 step 1 and 7b): it fails with a schema
    violation when a field is null and the schema marks it non-nullable,
    or when a field payload does not have the declared type.
  - monotonically_increasing_id (lines 58 and 67) is the engine id
    generator; its contract (pairwise distinct generated ids) is modelled
    by numbering the rows by position.
  - Writes are modelled as a list of Write records carrying the target
    path, the partition column names and the written rows; partitionBy
    pairs every row with the values of its partition columns.
  - Transforms return (writes so far, optional error): an error aborts the
    transform, keeping only the writes already performed before it.
-/

inductive EtlError where
  | schemaViolation
  | udfNull
deriving DecidableEq

inductive JsonField (α : Type) where
  | null
  | badType
  | val (a : α)
deriving DecidableEq

/-- Reading a field the schema marks non-nullable (StructField nullable = False). -/
def readReq {α : Type} : JsonField α → Except EtlError α
  | .val a => .ok a
  | _ => .error .schemaViolation

/-- Reading a nullable field (StructField nullable = True). -/
def readOpt {α : Type} : JsonField α → Except EtlError (Option α)
  | .val a => .ok (some a)
  | .null => .ok none
  | .badType => .error .schemaViolation

/-- A raw song-data JSON record, fields in the order of the schema at lines 41 to 50. -/
structure RawSongRecord where
  num_songs : JsonField Int
  artist_id : JsonField String
  artist_latitude : JsonField Int
  artist_longitude : JsonField Int
  artist_location : JsonField String
  artist_name : JsonField String
  song_id : JsonField String
  title : JsonField String
  duration : JsonField Int
  year : JsonField Int
deriving DecidableEq

/-- A song record loaded under the schema of lines 41 to 50: artist_id and
song_id are non-nullable, every other field is nullable. -/
structure SongRecord where
  num_songs : Option Int
  artist_id : String
  artist_latitude : Option Int
  artist_longitude : Option Int
  artist_location : Option String
  artist_name : Option String
  song_id : String
  title : Option String
  duration : Option Int
  year : Option Int
deriving DecidableEq

def parseSongRecord (r : RawSongRecord) : Except EtlError SongRecord := do
  let ns ← readOpt r.num_songs
  let aid ← readReq r.artist_id
  let lat ← readOpt r.artist_latitude
  let lng ← readOpt r.artist_longitude
  let loc ← readOpt r.artist_location
  let an ← readOpt r.artist_name
  let sid ← readReq r.song_id
  let ti ← readOpt r.title
  let du ← readOpt r.duration
  let yr ← readOpt r.year
  pure ⟨ns, aid, lat, lng, loc, an, sid, ti, du, yr⟩

/-- Modelled from the spec: spark.read.json with the declared schema
(line 53); any record violating the schema aborts the whole load
(sections 4.3 step 1 and 7b of the spec). -/
def readSongJson : List RawSongRecord → Except EtlError (List SongRecord)
  | [] => .ok []
  | r :: rs => do
    let v ← parseSongRecord r
    let vs ← readSongJson rs
    pure (v :: vs)

/-- The projection select(title, artist_id, year, duration) of line 56. -/
structure SongsCombo where
  title : Option String
  artist_id : String
  year : Option Int
  duration : Option Int
deriving DecidableEq

def songsCombo (r : SongRecord) : SongsCombo :=
  ⟨r.title, r.artist_id, r.year, r.duration⟩

/-- A row of the songs relation after withColumn(song_id, monotonically_increasing_id()). -/
structure SongsRow where
  title : Option String
  artist_id : String
  year : Option Int
  duration : Option Int
  song_id : Nat
deriving DecidableEq

def addSongId (p : Nat × SongsCombo) : SongsRow :=
  ⟨p.2.title, p.2.artist_id, p.2.year, p.2.duration, p.1⟩

/-- Lines 56 to 58: project, dropDuplicates, assign a generated song_id per row. -/
def songs_table (df : List SongRecord) : List SongsRow :=
  ((df.map songsCombo).dedup).enum.map addSongId

def songsComboOf (r : SongsRow) : SongsCombo :=
  ⟨r.title, r.artist_id, r.year, r.duration⟩

/-- The projection of line 64, renaming the artist_ columns, before the
artist_id overwrite: dropDuplicates at line 66 acts on these rows. -/
structure ArtistsProj where
  artist_id : String
  name : Option String
  location : Option String
  latitude : Option Int
  longitude : Option Int
deriving DecidableEq

def artistsProj (r : SongRecord) : ArtistsProj :=
  ⟨r.artist_id, r.artist_name, r.artist_location, r.artist_latitude, r.artist_longitude⟩

/-- A row of the artists relation after withColumn(artist_id,
monotonically_increasing_id()) at line 67 replaced the natural string key
by a generated numeric id. -/
structure ArtistsRow where
  artist_id : Nat
  name : Option String
  location : Option String
  latitude : Option Int
  longitude : Option Int
deriving DecidableEq

def overwriteArtistId (p : Nat × ArtistsProj) : ArtistsRow :=
  ⟨p.1, p.2.name, p.2.location, p.2.latitude, p.2.longitude⟩

/-- Lines 64 to 67: project and rename, dropDuplicates, overwrite artist_id. -/
def artists_table (df : List SongRecord) : List ArtistsRow :=
  ((df.map artistsProj).dedup).enum.map overwriteArtistId

/-- The non-id attribute columns of an artists row. -/
structure ArtistAttrs where
  name : Option String
  location : Option String
  latitude : Option Int
  longitude : Option Int
deriving DecidableEq

def artistsRowAttrs (r : ArtistsRow) : ArtistAttrs :=
  ⟨r.name, r.location, r.latitude, r.longitude⟩

def artistsProjAttrs (p : ArtistsProj) : ArtistAttrs :=
  ⟨p.name, p.location, p.latitude, p.longitude⟩

/-- A raw log-data JSON record, fields in the order of the schema at lines 85 to 102. -/
structure RawLogRecord where
  artist : JsonField String
  auth : JsonField String
  firstName : JsonField String
  gender : JsonField String
  itemInSession : JsonField Int
  lastName : JsonField String
  length : JsonField Int
  level : JsonField String
  location : JsonField String
  method : JsonField String
  page : JsonField String
  registration : JsonField String
  sessionId : JsonField Int
  song : JsonField String
  status : JsonField Int
  ts : JsonField Nat
  userAgent : JsonField String
  userId : JsonField Int
deriving DecidableEq

/-- A log record loaded under the schema of lines 85 to 102: only userId is
non-nullable. -/
structure LogRecord where
  artist : Option String
  auth : Option String
  firstName : Option String
  gender : Option String
  itemInSession : Option Int
  lastName : Option String
  length : Option Int
  level : Option String
  location : Option String
  method : Option String
  page : Option String
  registration : Option String
  sessionId : Option Int
  song : Option String
  status : Option Int
  ts : Option Nat
  userAgent : Option String
  userId : Int
deriving DecidableEq

def parseLogRecord (r : RawLogRecord) : Except EtlError LogRecord := do
  let ar ← readOpt r.artist
  let au ← readOpt r.auth
  let fn ← readOpt r.firstName
  let ge ← readOpt r.gender
  let ii ← readOpt r.itemInSession
  let ln ← readOpt r.lastName
  let le ← readOpt r.length
  let lv ← readOpt r.level
  let lo ← readOpt r.location
  let me ← readOpt r.method
  let pg ← readOpt r.page
  let re ← readOpt r.registration
  let si ← readOpt r.sessionId
  let so ← readOpt r.song
  let st ← readOpt r.status
  let t ← readOpt r.ts
  let ua ← readOpt r.userAgent
  let uid ← readReq r.userId
  pure ⟨ar, au, fn, ge, ii, ln, le, lv, lo, me, pg, re, si, so, st, t, ua, uid⟩

/-- Modelled from the spec: spark.read.json with the declared schema
(line 105); same failure contract as readSongJson. -/
def readLogJson : List RawLogRecord → Except EtlError (List LogRecord)
  | [] => .ok []
  | r :: rs => do
    let v ← parseLogRecord r
    let vs ← readLogJson rs
    pure (v :: vs)

/-- Line 108: df.filter(df.page == "NextSong"); a null page compares unequal. -/
def filterNextSong (df : List LogRecord) : List LogRecord :=
  df.filter (fun e => decide (e.page = some "NextSong"))

/-- A row of the users relation (line 111 projection with renames). -/
structure UserRow where
  user_id : Int
  first_name : Option String
  last_name : Option String
  gender : Option String
  level : Option String
deriving DecidableEq

def userProj (e : LogRecord) : UserRow :=
  ⟨e.userId, e.firstName, e.lastName, e.gender, e.level⟩

/-- Lines 111 to 112: project and dropDuplicates. -/
def users_table (df : List LogRecord) : List UserRow :=
  (df.map userProj).dedup

/-- Modelled from the spec: the function date_conversion referenced at
line 118 is missing from src; per sections 4.4 step 4 and 9 of the spec it
is a pure function mapping the raw timestamp representation to a proper
date-time value.  Since ts already carries an epoch timestamp under the
declared TimestampType, the conversion is the identity on that value. -/
def date_conversion (ts : Nat) : Nat := ts

/-- A filtered log row after withColumn(start_time, get_datetime(ts)) at line 119. -/
structure LogRecordT where
  base : LogRecord
  start_time : Nat
deriving DecidableEq

/-- Line 118: get_datetime = udf(date_conversion, TimestampType()).  The
row-wise udf hands a null ts to date_conversion, whose domain is raw
timestamps only, so a null ts fails the distributed job rather than
producing a row. -/
def get_datetime (e : LogRecord) : Except EtlError LogRecordT :=
  match e.ts with
  | none => .error .udfNull
  | some t => .ok ⟨e, date_conversion t⟩

/-- Line 119 applied across the filtered dataset. -/
def addStartTime : List LogRecord → Except EtlError (List LogRecordT)
  | [] => .ok []
  | e :: es => do
    let e2 ← get_datetime e
    let rest ← addStartTime es
    pure (e2 :: rest)

/-- Gregorian leap-year test, as used by the engine calendar functions. -/
def isLeapYear (y : Nat) : Bool :=
  (y % 4 == 0 && y % 100 != 0) || y % 400 == 0

def daysInYear (y : Nat) : Nat :=
  if isLeapYear y then 366 else 365

/-- Walk forward from a base year consuming whole years from a day count;
fuel bounds the recursion and always suffices when fuel exceeds the day
count divided by 365. -/
def yearDoyAux : Nat → Nat → Nat → Nat × Nat
  | 0, y, d => (y, d)
  | fuel + 1, y, d =>
    if d < daysInYear y then (y, d)
    else yearDoyAux fuel (y + 1) (d - daysInYear y)

/-- Split days since 1970-01-01 into (calendar year, zero-based day of year). -/
def yearDoy (d : Nat) : Nat × Nat :=
  yearDoyAux (d + 1) 1970 d

def febOffset (leap : Bool) : Nat := if leap then 1 else 0

/-- Month (1 to 12) from a zero-based day of year. -/
def monthOfDoy (doy : Nat) (leap : Bool) : Nat :=
  if doy < 31 then 1
  else if doy < 59 + febOffset leap then 2
  else if doy < 90 + febOffset leap then 3
  else if doy < 120 + febOffset leap then 4
  else if doy < 151 + febOffset leap then 5
  else if doy < 181 + febOffset leap then 6
  else if doy < 212 + febOffset leap then 7
  else if doy < 243 + febOffset leap then 8
  else if doy < 273 + febOffset leap then 9
  else if doy < 304 + febOffset leap then 10
  else if doy < 334 + febOffset leap then 11
  else 12

/-- Zero-based day of year on which a month starts. -/
def monthStart (m : Nat) (leap : Bool) : Nat :=
  match m with
  | 1 => 0
  | 2 => 31
  | 3 => 59 + febOffset leap
  | 4 => 90 + febOffset leap
  | 5 => 120 + febOffset leap
  | 6 => 151 + febOffset leap
  | 7 => 181 + febOffset leap
  | 8 => 212 + febOffset leap
  | 9 => 243 + febOffset leap
  | 10 => 273 + febOffset leap
  | 11 => 304 + febOffset leap
  | _ => 334 + febOffset leap

def dayOfDoy (doy : Nat) (leap : Bool) : Nat :=
  doy - monthStart (monthOfDoy doy leap) leap + 1

def millisPerDay : Nat := 86400000

/-- The engine hour function on a timestamp (line 124). -/
def sparkHour (t : Nat) : Nat := t / 3600000 % 24

/-- The engine year function on a timestamp (line 128). -/
def sparkYear (t : Nat) : Nat := (yearDoy (t / millisPerDay)).1

/-- The engine month function on a timestamp (line 127). -/
def sparkMonth (t : Nat) : Nat :=
  monthOfDoy (yearDoy (t / millisPerDay)).2 (isLeapYear (yearDoy (t / millisPerDay)).1)

/-- Modelled from the spec: the day function called at line 125 is not a
defined name in src; per section 4.4 step 5 it derives the day of month. -/
def sparkDay (t : Nat) : Nat :=
  dayOfDoy (yearDoy (t / millisPerDay)).2 (isLeapYear (yearDoy (t / millisPerDay)).1)

/-- Modelled from the spec: the week function called at line 126 is not a
defined name in src; per section 4.4 step 5 it derives a week-of-year
number. -/
def sparkWeek (t : Nat) : Nat := (yearDoy (t / millisPerDay)).2 / 7 + 1

/-- Modelled from the spec: date_format at line 129 is called without a
format pattern; per section 4.4 step 5 the derived column is the weekday
name.  1970-01-01 was a Thursday. -/
def sparkWeekdayName (t : Nat) : String :=
  match (t / millisPerDay + 4) % 7 with
  | 0 => "Sunday"
  | 1 => "Monday"
  | 2 => "Tuesday"
  | 3 => "Wednesday"
  | 4 => "Thursday"
  | 5 => "Friday"
  | _ => "Saturday"

/-- A row of the time relation, columns of lines 122 to 129. -/
structure TimeRow where
  start_time : Nat
  hour : Nat
  day : Nat
  week : Nat
  month : Nat
  year : Nat
  weekday : String
deriving DecidableEq

def mkTimeRow (t : Nat) : TimeRow :=
  ⟨t, sparkHour t, sparkDay t, sparkWeek t, sparkMonth t, sparkYear t, sparkWeekdayName t⟩

/-- Lines 122 to 129: distinct start_time values, each decorated with the
derived calendar columns. -/
def time_table (df2 : List LogRecordT) : List TimeRow :=
  ((df2.map (fun e => e.start_time)).dedup).map mkTimeRow

/-- SQL equality on nullable columns: null compares unequal to everything,
including null. -/
def nullEq {α : Type} [DecidableEq α] (a b : Option α) : Bool :=
  match a, b with
  | some x, some y => decide (x = y)
  | _, _ => false

/-- The default (inner) DataFrame join: every pair of rows satisfying the
join condition. -/
def innerJoin {α β : Type} (l : List α) (r : List β) (p : α → β → Bool) :
    List (α × β) :=
  l.flatMap (fun a => (r.filter (fun b => p a b)).map (fun b => (a, b)))

/-- A left outer DataFrame join: unmatched left rows survive with a null
right side. -/
def leftJoin {α β : Type} (l : List α) (r : List β) (p : α → β → Bool) :
    List (α × Option β) :=
  l.flatMap (fun a =>
    match r.filter (fun b => p a b) with
    | [] => [(a, none)]
    | ms => ms.map (fun b => (a, some b)))

/-- Line 140: df.join(songs_df, df.song == songs_df.title), an inner join. -/
def songJoin (df2 : List LogRecordT) (songs_df : List SongsRow) :
    List (LogRecordT × SongsRow) :=
  innerJoin df2 songs_df (fun e s => nullEq e.base.song s.title)

/-- Line 141: join to artists_df on the artist name, an inner join. -/
def artistJoin (j : List (LogRecordT × SongsRow)) (artists_df : List ArtistsRow) :
    List ((LogRecordT × SongsRow) × ArtistsRow) :=
  innerJoin j artists_df (fun es a => nullEq es.1.base.artist a.name)

/-- Lines 142 to 143: left join to the time relation on ts == start_time. -/
def timeJoin (j : List ((LogRecordT × SongsRow) × ArtistsRow))
    (tt : List TimeRow) :
    List (((LogRecordT × SongsRow) × ArtistsRow) × Option TimeRow) :=
  leftJoin j tt (fun x tr => nullEq x.1.1.base.ts (some tr.start_time))

/-- A row of the songplays fact relation (final projection of lines 146 to
148).  The songs-side year was dropped at line 144, so year and month come
from the time-relation side of the left join and are null when that join
found no match. -/
structure SongplaysRow where
  start_time : Nat
  user_id : Int
  level : Option String
  song_id : Nat
  artist_id : Nat
  session_id : Option Int
  location : Option String
  user_agent : Option String
  year : Option Nat
  month : Option Nat
deriving DecidableEq

def songplaysProj
    (x : ((LogRecordT × SongsRow) × ArtistsRow) × Option TimeRow) :
    SongplaysRow :=
  ⟨x.1.1.1.start_time, x.1.1.1.base.userId, x.1.1.1.base.level,
   x.1.1.2.song_id, x.1.2.artist_id, x.1.1.1.base.sessionId,
   x.1.1.1.base.location, x.1.1.1.base.userAgent,
   x.2.map (fun tr => tr.year), x.2.map (fun tr => tr.month)⟩

/-- Lines 140 to 148: the three joins followed by the final projection. -/
def songplays_table (df2 : List LogRecordT) (songs_df : List SongsRow)
    (artists_df : List ArtistsRow) : List SongplaysRow :=
  (timeJoin (artistJoin (songJoin df2 songs_df) artists_df)
            (time_table df2)).map songplaysProj

/-- The rows of a dataset written with partitionBy: each row paired with
the values of its partition columns. -/
def partitionByKey {ρ κ : Type} (key : ρ → κ) (rows : List ρ) : List (κ × ρ) :=
  rows.map (fun r => (key r, r))

inductive TableData where
  | songs (rows : List ((Option Int × String) × SongsRow))
  | artists (rows : List ArtistsRow)
  | users (rows : List UserRow)
  | time (rows : List ((Nat × Nat) × TimeRow))
  | songplays (rows : List ((Option Nat × Option Nat) × SongplaysRow))
deriving DecidableEq

/-- One parquet write: target path, partition column names, written rows. -/
structure Write where
  path : String
  partitionCols : List String
  data : TableData
deriving DecidableEq

def song_data_path (input_data : String) : String :=
  input_data ++ "song_data/*/*/*/*.json"

def log_data_path (input_data : String) : String :=
  input_data ++ "log_data/*/*/*.json"

def songs_write_path (output_data : String) : String :=
  output_data ++ "songs/"

def artists_write_path (output_data : String) : String :=
  output_data ++ "artists/"

def users_write_path (output_data : String) : String :=
  output_data ++ "users/"

def time_write_path (output_data : String) : String :=
  output_data ++ "time/"

def songplays_write_path (output_data : String) : String :=
  output_data ++ "songplays/"

/-- Line 135: the path the songplays step reads its songs dataset from. -/
def songplays_songs_read_path (output_data : String) : String :=
  output_data ++ "song_data/*/*/*"

/-- Line 137: the path the songplays step reads its artists dataset from. -/
def songplays_artists_read_path (output_data : String) : String :=
  output_data ++ "artists/*"

/-- Lines 29 to 70: load song data, build and write the songs and artists
relations.  A schema violation aborts the transform before any write. -/
def process_song_data (raw : List RawSongRecord) (output_data : String) :
    List Write × Option EtlError :=
  match readSongJson raw with
  | .error e => ([], some e)
  | .ok df =>
      ([⟨songs_write_path output_data, ["year", "artist_id"],
          .songs (partitionByKey (fun r => (r.year, r.artist_id)) (songs_table df))⟩,
        ⟨artists_write_path output_data, [],
          .artists (artists_table df)⟩],
       none)

/-- Lines 73 to 151: load log data, write users, derive start_time, write
time, join against the songs and artists datasets read back from storage
(supplied here as parameters holding whatever the paths of lines 135 and
137 contain), write songplays.  A schema violation aborts before any
write; a udf failure aborts after the users write. -/
def process_log_data (raw : List RawLogRecord) (songs_df : List SongsRow)
    (artists_df : List ArtistsRow) (output_data : String) :
    List Write × Option EtlError :=
  match readLogJson raw with
  | .error e => ([], some e)
  | .ok df0 =>
    match addStartTime (filterNextSong df0) with
    | .error e =>
      ([⟨users_write_path output_data, [],
          .users (users_table (filterNextSong df0))⟩], some e)
    | .ok df2 =>
      ([⟨users_write_path output_data, [],
          .users (users_table (filterNextSong df0))⟩,
        ⟨time_write_path output_data, ["year", "month"],
          .time (partitionByKey (fun r => (r.year, r.month)) (time_table df2))⟩,
        ⟨songplays_write_path output_data, ["year", "month"],
          .songplays (partitionByKey (fun r => (r.year, r.month))
            (songplays_table df2 songs_df artists_df))⟩],
       none)

/-- The orchestrator steps main can perform (lines 153 to 164). -/
inductive MainStep where
  | createContext
  | songTransform (input_data output_data : String)
  | logTransform (input_data output_data : String)
deriving DecidableEq

/-- Lines 153 to 164: create the session, run the song transform, then run
the log transform; an uncaught failure of the song transform propagates,
so the log transform is never invoked after one. -/
def mainTrace (songRaw : List RawSongRecord) : List MainStep :=
  [MainStep.createContext,
   MainStep.songTransform "s3a://udacity-dend/" ""] ++
    (match (process_song_data songRaw "").2 with
     | some _ => []
     | none => [MainStep.logTransform "s3a://udacity-dend/" ""])

/-
Helper lemmas shared by several claim theorems.
-/

theorem countP_enum_snd {α : Type} (q : α → Bool) (l : List α) :
    l.enum.countP (fun p => q p.2) = l.countP q := by
  have h1 : l.enum.countP (fun p => q p.2) =
      (l.enum.map Prod.snd).countP q := by
    rw [List.countP_map]
    rfl
  rw [h1, List.enum_map_snd]

theorem songs_table_combos (df : List SongRecord) :
    (songs_table df).map songsComboOf = (df.map songsCombo).dedup := by
  rw [songs_table, List.map_map]
  exact List.enum_map_snd ((df.map songsCombo).dedup)

theorem songs_table_ids (df : List SongRecord) :
    (songs_table df).map (fun r => r.song_id) =
      List.range ((df.map songsCombo).dedup).length := by
  rw [songs_table, List.map_map]
  exact List.enum_map_fst ((df.map songsCombo).dedup)

theorem artists_table_attrs (df : List SongRecord) :
    (artists_table df).map artistsRowAttrs =
      ((df.map artistsProj).dedup).map artistsProjAttrs := by
  rw [artists_table, List.map_map]
  have h : (artistsRowAttrs ∘ overwriteArtistId) =
      (artistsProjAttrs ∘ Prod.snd) := rfl
  rw [h, ← List.map_map, List.enum_map_snd]

theorem artists_table_ids (df : List SongRecord) :
    (artists_table df).map (fun r => r.artist_id) =
      List.range (artists_table df).length := by
  rw [artists_table, List.map_map, List.length_map, List.enum_length]
  exact List.enum_map_fst ((df.map artistsProj).dedup)

/-- Claim C1: for every input song-record dataset, the songs relation holds
exactly one row per distinct (title, artist_id, year, duration) combination
observed in the input, and the generated song_id values are pairwise
distinct. -/
theorem C1_songs_dedup_unique_ids (df : List SongRecord) (c : SongsCombo) :
    (songs_table df).countP (fun r => decide (songsComboOf r = c)) =
      (if c ∈ df.map songsCombo then 1 else 0) ∧
    ((songs_table df).map (fun r => r.song_id)).Nodup := by
  constructor
  · have h1 : (songs_table df).countP (fun r => decide (songsComboOf r = c)) =
        ((songs_table df).map songsComboOf).countP (fun x => decide (x = c)) := by
      rw [List.countP_map]
      rfl
    rw [h1, songs_table_combos]
    have h2 : ((df.map songsCombo).dedup).countP (fun x => decide (x = c)) =
        (df.map songsCombo).dedup.count c := rfl
    rw [h2, List.count_dedup]
  · rw [songs_table_ids]
    exact List.nodup_range _

theorem stringDataInj {a b : String} (h : a.data = b.data) : a = b := by
  cases a with
  | mk d1 =>
    cases b with
    | mk d2 =>
      have h2 : d1 = d2 := h
      rw [h2]

theorem string_append_right_ne (s : String) {a b : String} (h : a ≠ b) :
    s ++ a ≠ s ++ b := by
  intro hc
  apply h
  apply stringDataInj
  have h2 := congrArg String.data hc
  rw [String.data_append, String.data_append] at h2
  exact List.append_cancel_left h2

def lastChar (s : String) : Option Char := s.data.reverse.head?

theorem lastChar_append (s t : String) (h : t.data ≠ []) :
    lastChar (s ++ t) = lastChar t := by
  unfold lastChar
  rw [String.data_append, List.reverse_append]
  cases h2 : t.data.reverse with
  | nil =>
    have : t.data = [] := by
      have h3 := congrArg List.reverse h2
      simpa using h3
    exact absurd this h
  | cons a l => rfl

theorem ne_of_lastChar {a b : String} (h : lastChar a ≠ lastChar b) : a ≠ b :=
  fun hc => h (congrArg lastChar hc)

/-- Claim C5: the artists relation is the (artist_id, name, location,
latitude, longitude) projection with exact-duplicate rows removed, after
which the artist_id column of every row is overwritten with a generated
surrogate (the ids are exactly the row positions, so no row keeps its
natural string key), and the artists dataset is written with no partition
columns. -/
theorem C5_artists_surrogate_overwrite (df : List SongRecord)
    (raw : List RawSongRecord) (out : String) :
    ((artists_table df).map artistsRowAttrs =
        ((df.map artistsProj).dedup).map artistsProjAttrs) ∧
    ((artists_table df).map (fun r => r.artist_id) =
        List.range (artists_table df).length) ∧
    (readSongJson raw = .ok df →
      process_song_data raw out =
        ([⟨songs_write_path out, ["year", "artist_id"],
            .songs (partitionByKey (fun r => (r.year, r.artist_id)) (songs_table df))⟩,
          ⟨artists_write_path out, [], .artists (artists_table df)⟩],
         none)) := by
  refine ⟨artists_table_attrs df, artists_table_ids df, fun h => ?_⟩
  unfold process_song_data
  rw [h]

def cRawSong : RawSongRecord :=
  ⟨.val 1, .val "AR1", .null, .null, .null, .val "Artist A",
   .val "SO1", .val "Song X", .val 180, .val 2000⟩

def cSong : SongRecord :=
  ⟨some 1, "AR1", none, none, none, some "Artist A",
   "SO1", some "Song X", some 180, some 2000⟩

theorem C5_artists_surrogate_overwrite_witness :
    process_song_data [cRawSong] "" =
      ([⟨songs_write_path "", ["year", "artist_id"],
          .songs (partitionByKey (fun r => (r.year, r.artist_id)) (songs_table [cSong]))⟩,
        ⟨artists_write_path "", [], .artists (artists_table [cSong])⟩],
       none) :=
  (C5_artists_surrogate_overwrite [cSong] [cRawSong] "").2.2 rfl

/-- Claim C10 (frame): every write performed by process_song_data targets
the songs/ or artists/ location under the output root; the users/, time/
and songplays/ output locations and the two input globs are never written. -/
theorem C10_song_transform_frame (raw : List RawSongRecord)
    (out input_data : String) (w : Write)
    (hw : w ∈ (process_song_data raw out).1) :
    (w.path = songs_write_path out ∨ w.path = artists_write_path out) ∧
    w.path ≠ users_write_path out ∧
    w.path ≠ time_write_path out ∧
    w.path ≠ songplays_write_path out ∧
    w.path ≠ song_data_path input_data ∧
    w.path ≠ log_data_path input_data := by
  have hpath : w.path = songs_write_path out ∨ w.path = artists_write_path out := by
    unfold process_song_data at hw
    cases h : readSongJson raw with
    | error e => rw [h] at hw; simp at hw
    | ok df =>
      rw [h] at hw
      simp only [List.mem_cons, List.not_mem_nil, or_false] at hw
      rcases hw with hw | hw
      · left; rw [hw]
      · right; rw [hw]
  have hglobSong : lastChar (song_data_path input_data) = some 'n' := by
    rw [song_data_path, lastChar_append _ _ (by decide)]
    decide
  have hglobLog : lastChar (log_data_path input_data) = some 'n' := by
    rw [log_data_path, lastChar_append _ _ (by decide)]
    decide
  rcases hpath with hp | hp
  · have hlast : lastChar w.path = some '/' := by
      rw [hp, songs_write_path, lastChar_append _ _ (by decide)]
      decide
    refine ⟨Or.inl hp, ?_, ?_, ?_, ?_, ?_⟩
    · rw [hp, songs_write_path, users_write_path]
      exact string_append_right_ne out (by decide)
    · rw [hp, songs_write_path, time_write_path]
      exact string_append_right_ne out (by decide)
    · rw [hp, songs_write_path, songplays_write_path]
      exact string_append_right_ne out (by decide)
    · exact ne_of_lastChar (by rw [hlast, hglobSong]; decide)
    · exact ne_of_lastChar (by rw [hlast, hglobLog]; decide)
  · have hlast : lastChar w.path = some '/' := by
      rw [hp, artists_write_path, lastChar_append _ _ (by decide)]
      decide
    refine ⟨Or.inr hp, ?_, ?_, ?_, ?_, ?_⟩
    · rw [hp, artists_write_path, users_write_path]
      exact string_append_right_ne out (by decide)
    · rw [hp, artists_write_path, time_write_path]
      exact string_append_right_ne out (by decide)
    · rw [hp, artists_write_path, songplays_write_path]
      exact string_append_right_ne out (by decide)
    · exact ne_of_lastChar (by rw [hlast, hglobSong]; decide)
    · exact ne_of_lastChar (by rw [hlast, hglobLog]; decide)

theorem C10_song_transform_frame_witness :
    ((⟨songs_write_path "", ["year", "artist_id"],
        .songs (partitionByKey (fun r => (r.year, r.artist_id))
          (songs_table [cSong]))⟩ : Write).path = songs_write_path "" ∨
      (⟨songs_write_path "", ["year", "artist_id"],
        .songs (partitionByKey (fun r => (r.year, r.artist_id))
          (songs_table [cSong]))⟩ : Write).path = artists_write_path "") ∧
    (⟨songs_write_path "", ["year", "artist_id"],
      .songs (partitionByKey (fun r => (r.year, r.artist_id))
        (songs_table [cSong]))⟩ : Write).path ≠ users_write_path "" ∧
    (⟨songs_write_path "", ["year", "artist_id"],
      .songs (partitionByKey (fun r => (r.year, r.artist_id))
        (songs_table [cSong]))⟩ : Write).path ≠ time_write_path "" ∧
    (⟨songs_write_path "", ["year", "artist_id"],
      .songs (partitionByKey (fun r => (r.year, r.artist_id))
        (songs_table [cSong]))⟩ : Write).path ≠ songplays_write_path "" ∧
    (⟨songs_write_path "", ["year", "artist_id"],
      .songs (partitionByKey (fun r => (r.year, r.artist_id))
        (songs_table [cSong]))⟩ : Write).path ≠ song_data_path "s3a://udacity-dend/" ∧
    (⟨songs_write_path "", ["year", "artist_id"],
      .songs (partitionByKey (fun r => (r.year, r.artist_id))
        (songs_table [cSong]))⟩ : Write).path ≠ log_data_path "s3a://udacity-dend/" :=
  C10_song_transform_frame [cRawSong] "" "s3a://udacity-dend/" _ (by decide)

/-- Claim C7 (code divergence): the artists dataset joined at line 137 is
read from under the artists/ location written at line 70, but the songs
dataset joined at line 135 is read from output_data ++ song_data/*/*/*,
which is not the songs/ location that line 61 wrote (shown here at the
output root the orchestrator passes, the empty string). -/
theorem C7_songs_read_path_mismatch :
    songplays_songs_read_path "" = "song_data/*/*/*" ∧
    songs_write_path "" = "songs/" ∧
    (songs_write_path "").data.isPrefixOf (songplays_songs_read_path "").data = false ∧
    (artists_write_path "").data.isPrefixOf (songplays_artists_read_path "").data = true ∧
    songplays_songs_read_path "" ≠ songs_write_path "" := by
  refine ⟨rfl, rfl, rfl, rfl, ?_⟩
  exact ne_of_lastChar (by decide)

/-- Claim C6: the orchestrator always performs, in order, context creation
then the song transform then the log transform, with the hardcoded input
root and output root; the log transform appears only after a successful
song transform, with exactly those hardcoded roots. -/
theorem C6_orchestration (songRaw : List RawSongRecord) :
    (mainTrace songRaw).take 2 =
      [MainStep.createContext,
       MainStep.songTransform "s3a://udacity-dend/" ""] ∧
    (∀ i o, MainStep.logTransform i o ∈ mainTrace songRaw →
      i = "s3a://udacity-dend/" ∧ o = "" ∧
        (process_song_data songRaw "").2 = none) ∧
    ((process_song_data songRaw "").2 = none →
      mainTrace songRaw =
        [MainStep.createContext,
         MainStep.songTransform "s3a://udacity-dend/" "",
         MainStep.logTransform "s3a://udacity-dend/" ""]) := by
  unfold mainTrace
  cases h : (process_song_data songRaw "").2 with
  | some e =>
    refine ⟨rfl, ?_, ?_⟩
    · intro i o hm
      simp at hm
    · intro hn
      exact absurd hn (by simp)
  | none =>
    refine ⟨rfl, ?_, fun _ => rfl⟩
    intro i o hm
    simp at hm
    exact ⟨hm.1, hm.2, rfl⟩

theorem C6_orchestration_witness :
    ("s3a://udacity-dend/" = "s3a://udacity-dend/" ∧ "" = "" ∧
      (process_song_data ([] : List RawSongRecord) "").2 = none) ∧
    mainTrace [] =
      [MainStep.createContext,
       MainStep.songTransform "s3a://udacity-dend/" "",
       MainStep.logTransform "s3a://udacity-dend/" ""] :=
  ⟨(C6_orchestration []).2.1 "s3a://udacity-dend/" "" (by decide),
   (C6_orchestration []).2.2 rfl⟩

theorem except_bind_eq_ok {α β : Type} {x : Except EtlError α}
    {f : α → Except EtlError β} {b : β} (h : x >>= f = .ok b) :
    ∃ a, x = .ok a ∧ f a = .ok b := by
  cases x with
  | error e => exact Except.noConfusion h
  | ok a => exact ⟨a, rfl, h⟩

theorem addStartTime_ok_mem {df : List LogRecord} {df2 : List LogRecordT}
    (h : addStartTime df = .ok df2) :
    ∀ e2 ∈ df2, e2.base ∈ df ∧ e2.base.ts = some e2.start_time := by
  induction df generalizing df2 with
  | nil =>
    have h2 : ([] : List LogRecordT) = df2 := by
      injection h
    intro e2 he2
    rw [← h2] at he2
    exact absurd he2 (List.not_mem_nil e2)
  | cons e es ih =>
    unfold addStartTime at h
    obtain ⟨e2h, hg, h⟩ := except_bind_eq_ok h
    obtain ⟨rest, hr, h⟩ := except_bind_eq_ok h
    have hdf2 : e2h :: rest = df2 := by
      injection h
    intro x hx
    rw [← hdf2] at hx
    rcases List.mem_cons.mp hx with hx | hx
    · subst hx
      unfold get_datetime at hg
      cases hts : e.ts with
      | none => rw [hts] at hg; exact Except.noConfusion hg
      | some t =>
        rw [hts] at hg
        injection hg with hg2
        rw [← hg2]
        exact ⟨List.mem_cons_self e es, by rw [hts]; rfl⟩
    · have hih := ih hr x hx
      exact ⟨List.mem_cons_of_mem e hih.1, hih.2⟩

theorem mem_innerJoin {α β : Type} {l : List α} {r : List β}
    {p : α → β → Bool} {x : α × β} :
    x ∈ innerJoin l r p ↔ x.1 ∈ l ∧ x.2 ∈ r ∧ p x.1 x.2 = true := by
  obtain ⟨a, b⟩ := x
  constructor
  · intro h
    rcases List.mem_flatMap.mp h with ⟨a2, ha2, hx⟩
    rcases List.mem_map.mp hx with ⟨b2, hb2, heq⟩
    rcases List.mem_filter.mp hb2 with ⟨hbr, hp⟩
    injection heq with h1 h2
    subst h1
    subst h2
    exact ⟨ha2, hbr, hp⟩
  · rintro ⟨h1, h2, h3⟩
    exact List.mem_flatMap.mpr
      ⟨a, h1, List.mem_map.mpr ⟨b, List.mem_filter.mpr ⟨h2, h3⟩, rfl⟩⟩

theorem mem_leftJoin {α β : Type} {l : List α} {r : List β}
    {p : α → β → Bool} {x : α × Option β} (h : x ∈ leftJoin l r p) :
    x.1 ∈ l ∧
    (x.2 = none → r.filter (fun b => p x.1 b) = []) ∧
    (∀ b, x.2 = some b → b ∈ r ∧ p x.1 b = true) := by
  obtain ⟨a, ob⟩ := x
  rcases List.mem_flatMap.mp h with ⟨a2, ha2, hx⟩
  cases hf : r.filter (fun b => p a2 b) with
  | nil =>
    rw [hf] at hx
    have heq : (a, ob) = (a2, none) := List.mem_singleton.mp hx
    injection heq with h1 h2
    subst h1
    subst h2
    exact ⟨ha2, fun _ => hf, fun b hb => Option.noConfusion hb⟩
  | cons m ms =>
    rw [hf] at hx
    rcases List.mem_map.mp hx with ⟨b, hb, heq⟩
    have hbf : b ∈ r.filter (fun b2 => p a2 b2) := by rw [hf]; exact hb
    rcases List.mem_filter.mp hbf with ⟨hbr, hp⟩
    injection heq with h1 h2
    subst h1
    subst h2
    refine ⟨ha2, ?_, ?_⟩
    · intro hnone
      exact Option.noConfusion hnone
    · intro b2 hb2
      injection hb2 with h3
      subst h3
      exact ⟨hbr, hp⟩

theorem time_table_shape {df2 : List LogRecordT} {tr : TimeRow}
    (h : tr ∈ time_table df2) :
    tr.hour = sparkHour tr.start_time ∧
    tr.month = sparkMonth tr.start_time ∧
    tr.year = sparkYear tr.start_time ∧
    tr.start_time ∈ df2.map (fun e => e.start_time) := by
  rcases List.mem_map.mp h with ⟨t, ht, heq⟩
  rw [← heq]
  exact ⟨rfl, rfl, rfl, List.mem_dedup.mp ht⟩

theorem mkTimeRow_mem_time_table {df2 : List LogRecordT} {e2 : LogRecordT}
    (h : e2 ∈ df2) : mkTimeRow e2.start_time ∈ time_table df2 :=
  List.mem_map.mpr
    ⟨e2.start_time, List.mem_dedup.mpr (List.mem_map.mpr ⟨e2, h, rfl⟩), rfl⟩

theorem natIteLe {c : Prop} [Decidable c] {a b n : Nat} (ha : a ≤ n)
    (hb : b ≤ n) : (if c then a else b) ≤ n := by
  split
  · exact ha
  · exact hb

theorem natIteGe {c : Prop} [Decidable c] {a b n : Nat} (ha : n ≤ a)
    (hb : n ≤ b) : n ≤ (if c then a else b) := by
  split
  · exact ha
  · exact hb

theorem monthOfDoy_bounds (d : Nat) (l : Bool) :
    1 ≤ monthOfDoy d l ∧ monthOfDoy d l ≤ 12 := by
  unfold monthOfDoy
  constructor
  · repeat refine natIteGe (by decide) ?_
    decide
  · repeat refine natIteLe (by decide) ?_
    decide

theorem sparkHour_le (t : Nat) : sparkHour t ≤ 23 := by
  have h : t / 3600000 % 24 < 24 := Nat.mod_lt _ (by norm_num)
  unfold sparkHour
  omega

theorem sparkMonth_bounds (t : Nat) :
    1 ≤ sparkMonth t ∧ sparkMonth t ≤ 12 := by
  unfold sparkMonth
  exact monthOfDoy_bounds _ _

/-- Claim C2: every row of the users, time and songplays relations
produced by process_log_data stems from a log event whose page equals
NextSong; an event with any other page (even one with a valid userId)
contributes to none of the three relations.  Here df0 is the loaded log
dataset of line 105 and df2 the filtered dataset after the start_time
derivation of line 119; the three relations below are exactly the ones
process_log_data writes. -/
theorem C2_non_nextsong_excluded (df0 : List LogRecord)
    (df2 : List LogRecordT) (songs_df : List SongsRow)
    (artists_df : List ArtistsRow)
    (hconv : addStartTime (filterNextSong df0) = .ok df2) :
    (∀ u ∈ users_table (filterNextSong df0),
      ∃ e ∈ df0, e.page = some "NextSong" ∧ u = userProj e) ∧
    (∀ tr ∈ time_table df2,
      ∃ e ∈ df0, e.page = some "NextSong" ∧ e.ts = some tr.start_time) ∧
    (∀ rp ∈ songplays_table df2 songs_df artists_df,
      ∃ e ∈ df0, e.page = some "NextSong" ∧ e.userId = rp.user_id ∧
        e.ts = some rp.start_time) := by
  refine ⟨?_, ?_, ?_⟩
  · intro u hu
    rcases List.mem_map.mp (List.mem_dedup.mp hu) with ⟨e, he, heq⟩
    rcases List.mem_filter.mp he with ⟨he0, hp⟩
    exact ⟨e, he0, of_decide_eq_true hp, heq.symm⟩
  · intro tr htr
    have hshape := time_table_shape htr
    rcases List.mem_map.mp hshape.2.2.2 with ⟨e2, he2, hst⟩
    have hmem := addStartTime_ok_mem hconv e2 he2
    rcases List.mem_filter.mp hmem.1 with ⟨he0, hp⟩
    refine ⟨e2.base, he0, of_decide_eq_true hp, ?_⟩
    rw [hmem.2, hst]
  · intro rp hrp
    rcases List.mem_map.mp hrp with ⟨x, hx, hproj⟩
    have h1 := mem_leftJoin hx
    have h2 := mem_innerJoin.mp h1.1
    have h3 := mem_innerJoin.mp h2.1
    have hmem := addStartTime_ok_mem hconv x.1.1.1 h3.1
    rcases List.mem_filter.mp hmem.1 with ⟨he0, hp⟩
    refine ⟨x.1.1.1.base, he0, of_decide_eq_true hp, ?_, ?_⟩
    · rw [← hproj]; rfl
    · rw [← hproj]; exact hmem.2

def cNextRaw : RawLogRecord :=
  ⟨.val "Artist A", .null, .null, .null, .null, .null, .null, .null,
   .null, .null, .val "NextSong", .null, .null, .val "Song X", .null,
   .val 0, .null, .val 1⟩

def cHomeRaw : RawLogRecord :=
  ⟨.null, .null, .null, .null, .null, .null, .null, .null,
   .null, .null, .val "Home", .null, .null, .null, .null,
   .val 0, .null, .val 7⟩

def cNextLog : LogRecord :=
  ⟨some "Artist A", none, none, none, none, none, none, none,
   none, none, some "NextSong", none, none, some "Song X", none,
   some 0, none, 1⟩

def cHomeLog : LogRecord :=
  ⟨none, none, none, none, none, none, none, none,
   none, none, some "Home", none, none, none, none,
   some 0, none, 7⟩

def cNextLogT : LogRecordT := ⟨cNextLog, 0⟩

def cSongsRowY : SongsRow := ⟨some "Song X", "AR1", some 2000, some 180, 0⟩

def cArtistsRowA : ArtistsRow := ⟨0, some "Artist A", none, none, none⟩

theorem C2_non_nextsong_excluded_witness :
    (∀ u ∈ users_table (filterNextSong [cNextLog, cHomeLog]),
      ∃ e ∈ [cNextLog, cHomeLog], e.page = some "NextSong" ∧ u = userProj e) ∧
    (∀ tr ∈ time_table [cNextLogT],
      ∃ e ∈ [cNextLog, cHomeLog], e.page = some "NextSong" ∧
        e.ts = some tr.start_time) ∧
    (∀ rp ∈ songplays_table [cNextLogT] [cSongsRowY] [cArtistsRowA],
      ∃ e ∈ [cNextLog, cHomeLog], e.page = some "NextSong" ∧
        e.userId = rp.user_id ∧ e.ts = some rp.start_time) :=
  C2_non_nextsong_excluded [cNextLog, cHomeLog] [cNextLogT]
    [cSongsRowY] [cArtistsRowA] rfl

/-- Claim C3: in every time dataset written by process_log_data, each row
is stored under partition values equal to its own (year, month) columns,
its hour lies in 0 to 23 and its month in 1 to 12. -/
theorem C3_time_bounds_partition (raw : List RawLogRecord)
    (songs_df : List SongsRow) (artists_df : List ArtistsRow)
    (out : String) (w : Write)
    (hw : w ∈ (process_log_data raw songs_df artists_df out).1)
    (rows : List ((Nat × Nat) × TimeRow))
    (hdata : w.data = TableData.time rows) :
    ∀ kr ∈ rows,
      kr.1 = (kr.2.year, kr.2.month) ∧
      kr.2.hour ≤ 23 ∧ 1 ≤ kr.2.month ∧ kr.2.month ≤ 12 := by
  unfold process_log_data at hw
  split at hw
  · simp at hw
  · split at hw
    · have hweq := List.mem_singleton.mp hw
      subst hweq
      exact absurd hdata (by simp)
    · simp only [List.mem_cons, List.not_mem_nil, or_false] at hw
      rcases hw with hw | hw | hw
      · subst hw; exact absurd hdata (by simp)
      · subst hw
        injection hdata with hrows
        subst hrows
        intro kr hkr
        rcases List.mem_map.mp hkr with ⟨tr, htr, hkeq⟩
        have hsh := time_table_shape htr
        rw [← hkeq]
        refine ⟨rfl, ?_, ?_, ?_⟩
        · rw [hsh.1]; exact sparkHour_le _
        · rw [hsh.2.1]; exact (sparkMonth_bounds _).1
        · rw [hsh.2.1]; exact (sparkMonth_bounds _).2
      · subst hw; exact absurd hdata (by simp)

theorem C3_time_bounds_partition_witness :
    ((1970, 1), mkTimeRow 0).1 =
      (((1970, 1), mkTimeRow 0).2.year, ((1970, 1), mkTimeRow 0).2.month) ∧
    ((1970, 1), mkTimeRow 0).2.hour ≤ 23 ∧
    1 ≤ ((1970, 1), mkTimeRow 0).2.month ∧
    ((1970, 1), mkTimeRow 0).2.month ≤ 12 :=
  C3_time_bounds_partition [cNextRaw] [cSongsRowY] [cArtistsRowA] ""
    ⟨time_write_path "", ["year", "month"],
      .time (partitionByKey (fun r => (r.year, r.month)) (time_table [cNextLogT]))⟩
    (by decide)
    (partitionByKey (fun r => (r.year, r.month)) (time_table [cNextLogT]))
    rfl
    ((1970, 1), mkTimeRow 0) (by decide)

/-- Claim C9: the partition values of the time relation and of the
songplays relation are the year and month derived from the converted
start_time (the log schema carries no raw year or month column, and the
songs-side year was dropped at line 144 before the final projection, so
the surviving year and month columns are the time-dimension ones). -/
theorem C9_partition_from_start_time (df : List LogRecord)
    (df2 : List LogRecordT) (songs_df : List SongsRow)
    (artists_df : List ArtistsRow)
    (hconv : addStartTime df = Except.ok df2) :
    (∀ kr ∈ partitionByKey (fun r => (r.year, r.month)) (time_table df2),
      kr.1 = (kr.2.year, kr.2.month) ∧
      kr.2.year = sparkYear kr.2.start_time ∧
      kr.2.month = sparkMonth kr.2.start_time) ∧
    (∀ kr ∈ partitionByKey (fun r => (r.year, r.month))
        (songplays_table df2 songs_df artists_df),
      kr.1 = (kr.2.year, kr.2.month) ∧
      kr.2.year = some (sparkYear kr.2.start_time) ∧
      kr.2.month = some (sparkMonth kr.2.start_time)) := by
  constructor
  · intro kr hkr
    rcases List.mem_map.mp hkr with ⟨tr, htr, hkeq⟩
    have hsh := time_table_shape htr
    rw [← hkeq]
    exact ⟨rfl, hsh.2.2.1, hsh.2.1⟩
  · intro kr hkr
    rcases List.mem_map.mp hkr with ⟨rp, hrp, hkeq⟩
    rcases List.mem_map.mp hrp with ⟨x, hx, hproj⟩
    have hlj := mem_leftJoin hx
    have h2 := mem_innerJoin.mp hlj.1
    have h3 := mem_innerJoin.mp h2.1
    have he2 := addStartTime_ok_mem hconv x.1.1.1 h3.1
    have hts : x.1.1.1.base.ts = some x.1.1.1.start_time := he2.2
    have hptrue :
        nullEq x.1.1.1.base.ts
          (some (mkTimeRow x.1.1.1.start_time).start_time) = true := by
      rw [hts]
      simp [nullEq, mkTimeRow]
    have hfilter : mkTimeRow x.1.1.1.start_time ∈
        (time_table df2).filter
          (fun tr => nullEq x.1.1.1.base.ts (some tr.start_time)) :=
      List.mem_filter.mpr ⟨mkTimeRow_mem_time_table h3.1, hptrue⟩
    cases hob : x.2 with
    | none =>
      have hemp := hlj.2.1 hob
      rw [hemp] at hfilter
      exact absurd hfilter (List.not_mem_nil _)
    | some tr =>
      have htr := hlj.2.2 tr hob
      have hsh := time_table_shape htr.1
      have hst : x.1.1.1.start_time = tr.start_time := by
        have hp := htr.2
        rw [hts] at hp
        simpa [nullEq] using hp
      rw [← hkeq, ← hproj]
      refine ⟨rfl, ?_, ?_⟩
      · show (songplaysProj x).year = some (sparkYear (songplaysProj x).start_time)
        show x.2.map (fun t2 => t2.year) = some (sparkYear x.1.1.1.start_time)
        rw [hob, hst]
        exact congrArg some hsh.2.2.1
      · show (songplaysProj x).month = some (sparkMonth (songplaysProj x).start_time)
        show x.2.map (fun t2 => t2.month) = some (sparkMonth x.1.1.1.start_time)
        rw [hob, hst]
        exact congrArg some hsh.2.1

def cSongplayRow : SongplaysRow :=
  ⟨0, 1, none, 0, 0, none, none, none, some 1970, some 1⟩

theorem C9_partition_from_start_time_witness :
    (((1970, 1), mkTimeRow 0).1 =
        (((1970, 1), mkTimeRow 0).2.year, ((1970, 1), mkTimeRow 0).2.month) ∧
      ((1970, 1), mkTimeRow 0).2.year =
        sparkYear ((1970, 1), mkTimeRow 0).2.start_time ∧
      ((1970, 1), mkTimeRow 0).2.month =
        sparkMonth ((1970, 1), mkTimeRow 0).2.start_time) ∧
    (((some 1970, some 1), cSongplayRow).1 =
        (((some 1970, some 1), cSongplayRow).2.year,
         ((some 1970, some 1), cSongplayRow).2.month) ∧
      ((some 1970, some 1), cSongplayRow).2.year =
        some (sparkYear ((some 1970, some 1), cSongplayRow).2.start_time) ∧
      ((some 1970, some 1), cSongplayRow).2.month =
        some (sparkMonth ((some 1970, some 1), cSongplayRow).2.start_time)) :=
  ⟨(C9_partition_from_start_time [cNextLog] [cNextLogT] [cSongsRowY]
      [cArtistsRowA] rfl).1 ((1970, 1), mkTimeRow 0) (by decide),
   (C9_partition_from_start_time [cNextLog] [cNextLogT] [cSongsRowY]
      [cArtistsRowA] rfl).2 ((some 1970, some 1), cSongplayRow) (by decide)⟩

def cOtherSongsRow : SongsRow := ⟨some "Another Song", "AR1", some 2000, some 180, 0⟩

/-- Claim C4 counterexample: a NextSong event whose song title (Song X)
matches no title in the songs dataset produces an EMPTY songplays dataset:
the joins of lines 140 and 141 are inner joins, so the unmatched event is
dropped and no row with a null song_id or artist_id is emitted, contrary
to the claim. -/
theorem C4_counterexample :
    Write.mk (songplays_write_path "") ["year", "month"]
        (TableData.songplays []) ∈
      (process_log_data [cNextRaw] [cOtherSongsRow] [cArtistsRowA] "").1 := by
  decide

/-- Claim C4 (amended): a filtered NextSong event yields a songplays row
only when its song title exactly matches a songs-relation title and its
artist name exactly matches an artists-relation name, because the joins of
lines 140 and 141 are inner joins; an event without both matches is
dropped entirely (no null-filled row), and only the time join of line 142
is a left join.  Every emitted row carries the ids of its matches. -/
theorem C4_unmatched_events_dropped (df2 : List LogRecordT)
    (songs_df : List SongsRow) (artists_df : List ArtistsRow) :
    ∀ rp ∈ songplays_table df2 songs_df artists_df,
      ∃ e2 ∈ df2, ∃ s ∈ songs_df, ∃ a ∈ artists_df,
        nullEq e2.base.song s.title = true ∧
        nullEq e2.base.artist a.name = true ∧
        rp.song_id = s.song_id ∧ rp.artist_id = a.artist_id ∧
        rp.start_time = e2.start_time := by
  intro rp hrp
  rcases List.mem_map.mp hrp with ⟨x, hx, hproj⟩
  have hlj := mem_leftJoin hx
  have h2 := mem_innerJoin.mp hlj.1
  have h3 := mem_innerJoin.mp h2.1
  refine ⟨x.1.1.1, h3.1, x.1.1.2, h3.2.1, x.1.2, h2.2.1,
    h3.2.2, h2.2.2, ?_, ?_, ?_⟩ <;> rw [← hproj] <;> rfl

theorem C4_unmatched_events_dropped_witness :
    ∃ e2 ∈ [cNextLogT], ∃ s ∈ [cSongsRowY], ∃ a ∈ [cArtistsRowA],
      nullEq e2.base.song s.title = true ∧
      nullEq e2.base.artist a.name = true ∧
      cSongplayRow.song_id = s.song_id ∧
      cSongplayRow.artist_id = a.artist_id ∧
      cSongplayRow.start_time = e2.start_time :=
  C4_unmatched_events_dropped [cNextLogT] [cSongsRowY] [cArtistsRowA]
    cSongplayRow (by decide)

theorem parse_song_required {r : RawSongRecord}
    (hviol : r.artist_id = JsonField.null ∨ r.artist_id = JsonField.badType ∨
      r.song_id = JsonField.null ∨ r.song_id = JsonField.badType) :
    ∀ v, parseSongRecord r ≠ Except.ok v := by
  intro v h
  unfold parseSongRecord at h
  obtain ⟨ns, h1, h⟩ := except_bind_eq_ok h
  obtain ⟨aid, h2, h⟩ := except_bind_eq_ok h
  obtain ⟨lat, h3, h⟩ := except_bind_eq_ok h
  obtain ⟨lng, h4, h⟩ := except_bind_eq_ok h
  obtain ⟨loc, h5, h⟩ := except_bind_eq_ok h
  obtain ⟨an, h6, h⟩ := except_bind_eq_ok h
  obtain ⟨sid, h7, h⟩ := except_bind_eq_ok h
  rcases hviol with hv | hv | hv | hv
  · rw [hv] at h2; simp [readReq] at h2
  · rw [hv] at h2; simp [readReq] at h2
  · rw [hv] at h7; simp [readReq] at h7
  · rw [hv] at h7; simp [readReq] at h7

theorem parse_log_required {r : RawLogRecord}
    (hviol : r.userId = JsonField.null ∨ r.userId = JsonField.badType) :
    ∀ v, parseLogRecord r ≠ Except.ok v := by
  intro v h
  unfold parseLogRecord at h
  obtain ⟨ar, g1, h⟩ := except_bind_eq_ok h
  obtain ⟨au, g2, h⟩ := except_bind_eq_ok h
  obtain ⟨fn, g3, h⟩ := except_bind_eq_ok h
  obtain ⟨ge, g4, h⟩ := except_bind_eq_ok h
  obtain ⟨ii, g5, h⟩ := except_bind_eq_ok h
  obtain ⟨ln, g6, h⟩ := except_bind_eq_ok h
  obtain ⟨le, g7, h⟩ := except_bind_eq_ok h
  obtain ⟨lv, g8, h⟩ := except_bind_eq_ok h
  obtain ⟨lo, g9, h⟩ := except_bind_eq_ok h
  obtain ⟨me, g10, h⟩ := except_bind_eq_ok h
  obtain ⟨pg, g11, h⟩ := except_bind_eq_ok h
  obtain ⟨re, g12, h⟩ := except_bind_eq_ok h
  obtain ⟨si, g13, h⟩ := except_bind_eq_ok h
  obtain ⟨so, g14, h⟩ := except_bind_eq_ok h
  obtain ⟨st, g15, h⟩ := except_bind_eq_ok h
  obtain ⟨t, g16, h⟩ := except_bind_eq_ok h
  obtain ⟨ua, g17, h⟩ := except_bind_eq_ok h
  obtain ⟨uid, g18, h⟩ := except_bind_eq_ok h
  rcases hviol with hv | hv
  · rw [hv] at g18; simp [readReq] at g18
  · rw [hv] at g18; simp [readReq] at g18

theorem readSongJson_ok_parse {raw : List RawSongRecord}
    {df : List SongRecord} (h : readSongJson raw = Except.ok df) :
    ∀ r ∈ raw, ∃ v, parseSongRecord r = Except.ok v := by
  induction raw generalizing df with
  | nil => intro r hr; exact absurd hr (List.not_mem_nil r)
  | cons r0 rs ih =>
    unfold readSongJson at h
    obtain ⟨v, h1, h⟩ := except_bind_eq_ok h
    obtain ⟨vs, h2, h3⟩ := except_bind_eq_ok h
    intro r hr
    rcases List.mem_cons.mp hr with hr | hr
    · subst hr; exact ⟨v, h1⟩
    · exact ih h2 r hr

theorem readLogJson_ok_parse {raw : List RawLogRecord}
    {df : List LogRecord} (h : readLogJson raw = Except.ok df) :
    ∀ r ∈ raw, ∃ v, parseLogRecord r = Except.ok v := by
  induction raw generalizing df with
  | nil => intro r hr; exact absurd hr (List.not_mem_nil r)
  | cons r0 rs ih =>
    unfold readLogJson at h
    obtain ⟨v, h1, h⟩ := except_bind_eq_ok h
    obtain ⟨vs, h2, h3⟩ := except_bind_eq_ok h
    intro r hr
    rcases List.mem_cons.mp hr with hr | hr
    · subst hr; exact ⟨v, h1⟩
    · exact ih h2 r hr

/-- Claim C8: if any input record carries a null or ill-typed value in a
field the declared schema marks required (artist_id or song_id for song
data, userId for log data), the load fails with a schema-violation error
and the transform aborts having performed no write at all. -/
theorem C8_schema_violation_aborts :
    (∀ (songRaw : List RawSongRecord) (out : String),
      (∃ r ∈ songRaw,
        r.artist_id = JsonField.null ∨ r.artist_id = JsonField.badType ∨
        r.song_id = JsonField.null ∨ r.song_id = JsonField.badType) →
      (process_song_data songRaw out).1 = [] ∧
        (process_song_data songRaw out).2.isSome = true) ∧
    (∀ (logRaw : List RawLogRecord) (songs_df : List SongsRow)
        (artists_df : List ArtistsRow) (out : String),
      (∃ r ∈ logRaw,
        r.userId = JsonField.null ∨ r.userId = JsonField.badType) →
      (process_log_data logRaw songs_df artists_df out).1 = [] ∧
        (process_log_data logRaw songs_df artists_df out).2.isSome = true) := by
  constructor
  · rintro songRaw out ⟨r, hr, hviol⟩
    cases h : readSongJson songRaw with
    | error e =>
      unfold process_song_data
      rw [h]
      exact ⟨rfl, rfl⟩
    | ok df =>
      obtain ⟨v, hv⟩ := readSongJson_ok_parse h r hr
      exact absurd hv (parse_song_required hviol v)
  · rintro logRaw songs_df artists_df out ⟨r, hr, hviol⟩
    cases h : readLogJson logRaw with
    | error e =>
      unfold process_log_data
      rw [h]
      exact ⟨rfl, rfl⟩
    | ok df =>
      obtain ⟨v, hv⟩ := readLogJson_ok_parse h r hr
      exact absurd hv (parse_log_required hviol v)

def cBadRawSong : RawSongRecord :=
  ⟨.null, .null, .null, .null, .null, .null, .null, .null, .null, .null⟩

def cBadRawLog : RawLogRecord :=
  ⟨.null, .null, .null, .null, .null, .null, .null, .null, .null,
   .null, .null, .null, .null, .null, .null, .null, .null, .null⟩

theorem C8_schema_violation_aborts_witness :
    ((process_song_data [cBadRawSong] "").1 = [] ∧
      (process_song_data [cBadRawSong] "").2.isSome = true) ∧
    ((process_log_data [cBadRawLog] [] [] "").1 = [] ∧
      (process_log_data [cBadRawLog] [] [] "").2.isSome = true) :=
  ⟨C8_schema_violation_aborts.1 [cBadRawSong] ""
      ⟨cBadRawSong, List.mem_cons_self _ _, Or.inl rfl⟩,
   C8_schema_violation_aborts.2 [cBadRawLog] [] [] ""
      ⟨cBadRawLog, List.mem_cons_self _ _, Or.inl rfl⟩⟩
